import Mathlib

/-!
Shallow embedding of py-lightpack (src/lightpack.py): the wire codec, the
LED-reference resolver, the session caches and the scripted transport, with
proofs settling the specification claims.

Strings are modelled as lists of characters; Python string methods
(`split` with and without a maxsplit, `rstrip`, `strip`, `int(...)`,
`'%d' % n`) are embedded as functions on `List Char` below.
-/

namespace PyLightpack

/-- Characters of a Lean string literal, used to write concrete wire strings. -/
def strc (s : String) : List Char := s.data

/-- Whitespace characters in the sense of Python's `str.strip()` / `str.isspace()`
and the regex class matched by `\s` (complement of `\S`). -/
def isPySpace (c : Char) : Bool :=
  c == ' ' || c == '\t' || c == '\n' || c == '\r' || c == '\x0b' || c == '\x0c'

/-- Numeric value of an ASCII digit character, `none` for any other character. -/
def digitVal (c : Char) : Option Nat :=
  if 48 ≤ c.toNat ∧ c.toNat ≤ 57 then some (c.toNat - 48) else none

/-- Split a character list at the first occurrence of `sep`: returns the parts
before and after it, or `none` when `sep` does not occur. -/
def splitOnce (sep : Char) : List Char → Option (List Char × List Char)
  | [] => none
  | c :: cs =>
    if c = sep then some ([], cs)
    else
      match splitOnce sep cs with
      | none => none
      | some p => some (c :: p.1, p.2)

/-- Python `s.split(sep, 1)`: a list of one part (no separator) or two parts. -/
def pySplit1 (sep : Char) (s : List Char) : List (List Char) :=
  match splitOnce sep s with
  | none => [s]
  | some p => [p.1, p.2]

/-- Python `s.split(sep, n)` for a maxsplit of `n`. -/
def pySplitN (sep : Char) : Nat → List Char → List (List Char)
  | 0, s => [s]
  | n + 1, s =>
    match splitOnce sep s with
    | none => [s]
    | some p => p.1 :: pySplitN sep n p.2

/-- Fuel-indexed worker for `pySplitAll`; with fuel above the length of the
input it performs every split. -/
def splitAllFuel (sep : Char) : Nat → List Char → List (List Char)
  | 0, s => [s]
  | n + 1, s =>
    match splitOnce sep s with
    | none => [s]
    | some p => p.1 :: splitAllFuel sep n p.2

/-- Python `s.split(sep)` with a single-character separator (keeps empty parts). -/
def pySplitAll (sep : Char) (s : List Char) : List (List Char) :=
  splitAllFuel sep (s.length + 1) s

/-- Python `s.rstrip(c)` for a single-character argument. -/
def pyRstrip (c : Char) (s : List Char) : List Char :=
  (s.reverse.dropWhile (fun x => x == c)).reverse

/-- Python `s.strip()`: remove leading and trailing whitespace. -/
def pyStripWS (s : List Char) : List Char :=
  ((s.dropWhile isPySpace).reverse.dropWhile isPySpace).reverse

/-- Truthiness of `s.strip()` in Python: the string has a non-whitespace character. -/
def hasNonWS (s : List Char) : Bool :=
  s.any (fun c => !(isPySpace c))

/-- Python `sep.join(parts)` for a one-character separator. -/
def joinChar (sep : Char) : List (List Char) → List Char
  | [] => []
  | [s] => s
  | s :: rest => s ++ sep :: joinChar sep rest

/-- Python `list.index(x)`: position of the first occurrence, `none` when absent
(where `list.index` raises ValueError). -/
def listIndexOf (l : List (List Char)) (x : List Char) : Option Nat :=
  match l with
  | [] => none
  | y :: rest => if y = x then some 0 else (listIndexOf rest x).map (fun n => n + 1)

/-- Python `dict` assignment `d[k] = v`: replace the value at an existing key,
otherwise append in insertion order. -/
def dictInsert {α β : Type} [DecidableEq α] (k : α) (v : β) :
    List (α × β) → List (α × β)
  | [] => [(k, v)]
  | (k', v') :: rest =>
    if k' = k then (k, v) :: rest else (k', v') :: dictInsert k v rest

/-- Python `k in d` / `d[k]` lookup on the association-list model of a dict. -/
def dictLookup {α β : Type} [DecidableEq α] (k : α) : List (α × β) → Option β
  | [] => none
  | (k', v') :: rest => if k' = k then some v' else dictLookup k rest

/-- Worker for Python `int(...)` digit parsing: consumes digits, allowing a
single underscore between two digits (Python's numeric-literal grouping). -/
def parseUAux : Nat → List Char → Option Nat
  | acc, [] => some acc
  | acc, c :: rest =>
    if c = '_' then
      match rest with
      | [] => none
      | c2 :: rest2 =>
        match digitVal c2 with
        | some d => parseUAux (acc * 10 + d) rest2
        | none => none
    else
      match digitVal c with
      | some d => parseUAux (acc * 10 + d) rest
      | none => none

/-- Parse a nonempty run of digits (with Python's underscore grouping) to a Nat. -/
def parseUDigits (s : List Char) : Option Nat :=
  match s with
  | [] => none
  | c :: rest =>
    match digitVal c with
    | some d => parseUAux d rest
    | none => none

/-- Python `int(s)` on a string: strip whitespace, optional sign, digits;
`none` models the ValueError raised on any other input. -/
def pyParseInt (s : List Char) : Option Int :=
  match pyStripWS s with
  | [] => none
  | c :: rest =>
    if c = '-' then (parseUDigits rest).map (fun n => -(n : Int))
    else if c = '+' then (parseUDigits rest).map (fun n => (n : Int))
    else (parseUDigits (c :: rest)).map (fun n => (n : Int))

/-- Little-endian base-10 digits, computed with structural fuel so that the
kernel can evaluate it; agrees with `Nat.digits 10` (proved below). -/
def natDigitsAux : Nat → Nat → List Nat
  | 0, _ => []
  | _ + 1, 0 => []
  | fuel + 1, n + 1 => ((n + 1) % 10) :: natDigitsAux fuel ((n + 1) / 10)

/-- Little-endian base-10 digits of `n`. -/
def natDigitsLE (n : Nat) : List Nat := natDigitsAux n n

/-- Decimal rendering of a natural number, as Python's `'%d' % n` produces. -/
def natRepr (n : Nat) : List Char :=
  if n = 0 then ['0'] else (natDigitsLE n).reverse.map Nat.digitChar

/-- Python `'%d' % i` for an arbitrary integer. -/
def pyFmtInt (i : Int) : List Char :=
  if i < 0 then '-' :: natRepr (-i).toNat else natRepr i.toNat

/-! ## Wire codec (`Lightpack._commandPart`, `_ledColourRead`, `_ledDimensionRead`
and the pure parts of `getColoursFromAll` / the colour and size encoders). -/

/-- `Lightpack._commandPart`: `string.split(':', 1)[part]`, with the IndexError
on a missing part mapped to `none`. -/
def commandPart (s : List Char) (part : Nat) : Option (List Char) :=
  (pySplit1 ':' s).get? part

/-- `Lightpack._name`: the part of a command or response before the first colon. -/
def nameOf (s : List Char) : Option (List Char) := commandPart s 0

/-- `Lightpack._payload`: the part of a command or response after the first colon. -/
def payloadOf (s : List Char) : Option (List Char) := commandPart s 1

/-- The list comprehension `[int(x) for x in parts if x.strip()]`: filter the
blank parts out and parse the rest; `none` models the ValueError raised when
any retained part fails `int(...)`. -/
def parseCsvInts (parts : List (List Char)) : Option (List Int) :=
  match parts with
  | [] => some []
  | x :: rest =>
    if hasNonWS x then
      match pyParseInt x with
      | none => none
      | some v =>
        match parseCsvInts rest with
        | none => none
        | some vs => some (v :: vs)
    else parseCsvInts rest

/-- `Lightpack._ledColourRead`: decode one `<idx>-<r>,<g>,<b>` snippet, `none`
for any malformed snippet (IndexError and ValueError are caught, and a blank
index or a component count other than three returns `None`). -/
def ledColourRead (s : List Char) : Option (Int × (Int × Int × Int)) :=
  match splitOnce '-' s with
  | none => none
  | some parts =>
    match parseCsvInts (pySplitN ',' 2 parts.2) with
    | none => none
    | some rgb =>
      let led := pyStripWS parts.1
      if led.isEmpty then none
      else
        match rgb with
        | [r, g, b] =>
          match pyParseInt led with
          | none => none
          | some l => some (l, (r, g, b))
        | _ => none

/-- `Lightpack._ledDimensionRead`: decode one `<idx>-<x>,<y>,<w>,<h>` snippet,
`none` for any malformed snippet. -/
def ledDimensionRead (s : List Char) : Option (Int × List Int) :=
  match splitOnce '-' s with
  | none => none
  | some parts =>
    match parseCsvInts (pySplitN ',' 3 parts.2) with
    | none => none
    | some rect =>
      let led := pyStripWS parts.1
      if led.isEmpty then none
      else if rect.length = 4 then
        match pyParseInt led with
        | none => none
        | some l => some (l, rect)
      else none

/-- The accumulation loop of `getColoursFromAll`: insert each decodable snippet
into the dictionary, silently skipping snippets that decode to `None`. -/
def colourLoop : List (List Char) → List (Int × (Int × Int × Int)) →
    List (Int × (Int × Int × Int))
  | [], acc => acc
  | s :: rest, acc =>
    match ledColourRead s with
    | none => colourLoop rest acc
    | some kv => colourLoop rest (dictInsert kv.1 kv.2 acc)

/-- Pure decoding part of `getColoursFromAll`: strip a trailing run of `;`,
split on `;` and fold the snippets into a dictionary. -/
def decodeColourList (payload : List Char) : List (Int × (Int × Int × Int)) :=
  colourLoop (pySplitAll ';' (pyRstrip ';' payload)) []

/-- The accumulation loop of `getLedSizes` over size snippets. -/
def sizeLoop : List (List Char) → List (Int × List Int) → List (Int × List Int)
  | [], acc => acc
  | s :: rest, acc =>
    match ledDimensionRead s with
    | none => sizeLoop rest acc
    | some kv => sizeLoop rest (dictInsert kv.1 kv.2 acc)

/-- The format expression `'%d-%d,%d,%d' % (idx, r, g, b)` of `_ledColourDef`,
applied to an already-resolved wire index. -/
def encodeColourAssignment (i : Int) (rgb : Int × Int × Int) : List Char :=
  pyFmtInt i ++ '-' :: (pyFmtInt rgb.1 ++ ',' :: (pyFmtInt rgb.2.1 ++ ',' :: pyFmtInt rgb.2.2))

/-! ## Version negotiation (`connect`'s greeting check). -/

/-- A parsed `distutils` StrictVersion: major, minor, patch and an optional
prerelease tag (`false` for `a`, `true` for `b`, with its number). -/
structure StrictVer where
  major : Nat
  minor : Nat
  patch : Nat
  pre : Option (Bool × Nat)
deriving DecidableEq

/-- Longest digit run at the front of a string, with the rest. -/
def takeDigits (s : List Char) : List Char × List Char :=
  (s.takeWhile (fun c => (digitVal c).isSome), s.dropWhile (fun c => (digitVal c).isSome))

/-- Value of a big-endian digit run. -/
def digitsValBE (s : List Char) : Nat :=
  s.foldl (fun a c => a * 10 + ((digitVal c).getD 0)) 0

/-- StrictVersion's anchored pattern `(\d+) \. (\d+) (\. (\d+))? ([ab](\d+))?`:
`none` models the ValueError raised when the string does not match. -/
def parseStrictVersion (s : List Char) : Option StrictVer :=
  let p1 := takeDigits s
  if p1.1.isEmpty then none
  else
    match p1.2 with
    | '.' :: r2 =>
      let p2 := takeDigits r2
      if p2.1.isEmpty then none
      else
        let patchRest : Option Nat × List Char :=
          match p2.2 with
          | '.' :: r3 =>
            let p3 := takeDigits r3
            if p3.1.isEmpty then (none, p2.2) else (some (digitsValBE p3.1), p3.2)
          | r3 => (none, r3)
        let preRest : Option (Option (Bool × Nat) × List Char) :=
          match patchRest.2 with
          | [] => some (none, [])
          | 'a' :: r4 =>
            let p4 := takeDigits r4
            if p4.1.isEmpty then none else some (some (false, digitsValBE p4.1), p4.2)
          | 'b' :: r4 =>
            let p4 := takeDigits r4
            if p4.1.isEmpty then none else some (some (true, digitsValBE p4.1), p4.2)
          | _ => none
        match preRest with
        | none => none
        | some pr =>
          if pr.2.isEmpty then
            some ⟨digitsValBE p1.1, digitsValBE p2.1, (patchRest.1).getD 0, pr.1⟩
          else none
    | _ => none

/-- StrictVersion ordering: compare (major, minor, patch), then treat a
prerelease as smaller than the corresponding release, `a` before `b`. -/
def verLt (x y : StrictVer) : Bool :=
  if x.major ≠ y.major then x.major < y.major
  else if x.minor ≠ y.minor then x.minor < y.minor
  else if x.patch ≠ y.patch then x.patch < y.patch
  else
    match x.pre, y.pre with
    | none, _ => false
    | some _, none => true
    | some p, some q => (p.1 = false && q.1 = true) || (p.1 = q.1 && p.2 < q.2)

/-- `re.match(r'^Lightpack API v(\S+)', greeting)`: the captured group is the
maximal nonempty run of non-whitespace characters after the literal prefix;
`none` when the pattern does not match. -/
def greetMatch (g : List Char) : Option (List Char) :=
  if (strc "Lightpack API v").isPrefixOf g then
    let grp := (g.drop 15).takeWhile (fun c => !(isPySpace c))
    if grp.isEmpty then none else some grp
  else none

/-! ## Exceptions escaping the library's methods. -/

/-- Exceptions a method can raise: the library's classified errors
(`CannotConnectError`, `AliasDoesNotExistError`, `CommandFailedError`), the
builtin exceptions that escape unclassified (AttributeError, ValueError,
TypeError, IndexError, KeyError), and a transport-level read failure. -/
inductive PyErr where
  | cannotConnect
  | aliasDoesNotExist
  | commandFailed (command response expected : List Char)
  | attributeError
  | valueError
  | typeError
  | indexError
  | keyError
  | transportFailed
deriving DecidableEq

instance {ε α : Type} [DecidableEq ε] [DecidableEq α] : DecidableEq (Except ε α) :=
  fun a b =>
    match a, b with
    | .error e, .error f =>
      match decEq e f with
      | .isTrue h => .isTrue (by rw [h])
      | .isFalse h => .isFalse (fun hc => h (by cases hc; rfl))
    | .ok x, .ok y =>
      match decEq x y with
      | .isTrue h => .isTrue (by rw [h])
      | .isFalse h => .isFalse (fun hc => h (by cases hc; rfl))
    | .error _, .ok _ => .isFalse (fun hc => by cases hc)
    | .ok _, .error _ => .isFalse (fun hc => by cases hc)

/-- `connect`'s greeting handling after the response line is read (the dead
`if not match` classification in the source is unreachable, because
`match.group(1)` is evaluated first and raises AttributeError when the
pattern did not match; a group that fails version parsing raises ValueError
inside `StrictVersion`). -/
def connectCheck (greeting : List Char) : Except PyErr StrictVer :=
  match greetMatch greeting with
  | none => .error .attributeError
  | some grp =>
    match parseStrictVersion grp with
    | none => .error .valueError
    | some v =>
      if verLt v ⟨1, 4, 0, none⟩ || verLt ⟨1, 5, 0, none⟩ v then .error .cannotConnect
      else .ok v

/-! ## Session state and the scripted transport.

The raw socket is an external collaborator; it is embedded as a script of
response lines to be consumed in order, together with a log of the commands
sent, so that theorems can count and inspect network round-trips. -/

/-- The transport: upcoming response lines (already stripped of `\r\n`) and
the log of commands sent so far. -/
structure Conn where
  script : List (List Char)
  sent : List (List Char)
deriving DecidableEq

/-- The dynamic type of the `_ledSizes` attribute: `__init__` assigns the empty
list, while a fetch assigns a dict. -/
inductive LedSizesVal where
  | pyList
  | pyDict (d : List (Int × List Int))
deriving DecidableEq

/-- The session state of a `Lightpack` object: the configuration and cache
attributes set in `__init__`, plus the scripted connection. -/
structure Lp where
  led_map : Option (List (List Char))
  countLeds : Option Int
  profiles : List (List Char)
  ledSizes : LedSizesVal
  screenSize : Option (List Int)
  monitor : List (Int × List Int)
  conn : Conn
deriving DecidableEq

/-- A freshly constructed `Lightpack` object (`__init__`), with the given alias
list and connection script. -/
def initLp (led_map : Option (List (List Char))) (script : List (List Char)) : Lp :=
  { led_map := led_map, countLeds := none, profiles := [], ledSizes := .pyList,
    screenSize := none, monitor := [], conn := { script := script, sent := [] } }

/-- `Lightpack._readResult`: read one `\r\n`-terminated line off the transport. -/
def readResult (st : Lp) : Except PyErr (List Char × Lp) :=
  match st.conn.script with
  | [] => .error .transportFailed
  | l :: rest => .ok (l, { st with conn := { st.conn with script := rest } })

/-- `Lightpack._send`: write the command followed by a newline. -/
def sendCmd (cmd : List Char) (st : Lp) : Lp :=
  { st with conn := { st.conn with sent := st.conn.sent ++ [cmd] } }

/-- `Lightpack._sendAndReceive`. -/
def sendAndReceive (cmd : List Char) (st : Lp) : Except PyErr (List Char × Lp) :=
  readResult (sendCmd cmd st)

/-- `Lightpack._sendAndReceivePayload`. -/
def sendAndReceivePayload (cmd : List Char) (st : Lp) :
    Except PyErr (Option (List Char) × Lp) :=
  match sendAndReceive cmd st with
  | .error e => .error e
  | .ok p => .ok (payloadOf p.1, p.2)

/-- `Lightpack._sendAndExpect`: raise `CommandFailedError` unless the response
is exactly the expected string. -/
def sendAndExpect (cmd expected : List Char) (st : Lp) : Except PyErr Lp :=
  match sendAndReceive cmd st with
  | .error e => .error e
  | .ok p => if p.1 = expected then .ok p.2 else .error (.commandFailed cmd p.1 expected)

/-- `Lightpack._sendAndExpectOk`. -/
def sendAndExpectOk (cmd : List Char) (st : Lp) : Except PyErr Lp :=
  sendAndExpect cmd (strc "ok") st

/-- `Lightpack.getCountLeds(fresh)`: fetch when `fresh` is set or the cache
attribute is still `None`, else return the cached count. `int(None)` raises
TypeError when the response line has no payload. -/
def getCountLeds (fresh : Bool) (st : Lp) : Except PyErr (Int × Lp) :=
  if fresh || st.countLeds.isNone then
    match sendAndReceivePayload (strc "getcountleds") st with
    | .error e => .error e
    | .ok (none, _) => .error .typeError
    | .ok (some p, st') =>
      match pyParseInt p with
      | none => .error .valueError
      | some n => .ok (n, { st' with countLeds := some n })
  else .ok (st.countLeds.getD 0, st)

/-- A LED reference: a preconfigured alias string or a 0-based index. -/
inductive LedRef where
  | alias (a : List Char)
  | idx (i : Int)
deriving DecidableEq

/-- `Lightpack._ledIndex`: resolve an alias via `led_map.index` (raising
`AliasDoesNotExistError` when no alias list is configured or the alias is
absent), or bound-check a 0-based index against `getCountLeds(fresh=False)`
and return the 1-based index. -/
def ledIndex (led : LedRef) (st : Lp) : Except PyErr (Int × Lp) :=
  match led with
  | .alias a =>
    match st.led_map with
    | none => .error .aliasDoesNotExist
    | some m =>
      match listIndexOf m a with
      | none => .error .aliasDoesNotExist
      | some p => .ok ((p : Int) + 1, st)
  | .idx i =>
    match getCountLeds false st with
    | .error e => .error e
    | .ok (count, st') =>
      if i + 1 > count then .error .indexError else .ok (i + 1, st')

/-- `Lightpack.getProfiles(fresh)`: fetch when `fresh` is set or the cached
list compares equal to `[]`; the payload is stripped of trailing `;` and
split on `;` (`None.rstrip` raises AttributeError when there is no payload). -/
def getProfiles (fresh : Bool) (st : Lp) : Except PyErr (List (List Char) × Lp) :=
  if fresh || st.profiles.isEmpty then
    match sendAndReceivePayload (strc "getprofiles") st with
    | .error e => .error e
    | .ok (none, _) => .error .attributeError
    | .ok (some p, st') =>
      let ps := pySplitAll ';' (pyRstrip ';' p)
      .ok (ps, { st' with profiles := ps })
  else .ok (st.profiles, st)

/-- The guard expression `self._ledSizes == {}` of `getLedSizes`: in Python a
list never compares equal to a dict, so this is true only for the empty dict. -/
def ledSizesEqEmptyDict : LedSizesVal → Bool
  | .pyDict [] => true
  | _ => false

/-- `Lightpack.getLedSizes(fresh)`: fetch when `fresh` is set or the cache
attribute compares equal to `{}` (note `__init__` sets it to the empty list,
which does not), decode the snippets into a dict. -/
def getLedSizes (fresh : Bool) (st : Lp) : Except PyErr (LedSizesVal × Lp) :=
  if fresh || ledSizesEqEmptyDict st.ledSizes then
    match sendAndReceivePayload (strc "getleds") st with
    | .error e => .error e
    | .ok (none, _) => .error .attributeError
    | .ok (some p, st') =>
      let d := sizeLoop (pySplitAll ';' (pyRstrip ';' p)) []
      .ok (.pyDict d, { st' with ledSizes := .pyDict d })
  else .ok (st.ledSizes, st)

/-- `Lightpack.getScreenSize(fresh)`: fetch when `fresh` is set or the cache is
`None`; AttributeError (missing payload) and ValueError (non-integer field)
are caught and return `None` without touching the cache; otherwise the parsed
tuple — whatever its arity, including the empty tuple — is cached and
returned. -/
def getScreenSize (fresh : Bool) (st : Lp) : Except PyErr (Option (List Int) × Lp) :=
  if fresh || st.screenSize.isNone then
    match sendAndReceivePayload (strc "getscreensize") st with
    | .error e => .error e
    | .ok (none, st') => .ok (none, st')
    | .ok (some p, st') =>
      match parseCsvInts (pySplitN ',' 3 p) with
      | none => .ok (none, st')
      | some rect => .ok (some rect, { st' with screenSize := some rect })
  else .ok (st.screenSize, st)

/-- `Lightpack.getMonitorSize(monitor, fresh)`: fetch when `fresh` is set, the
monitor dict is empty, or this monitor is not cached; AttributeError (missing
payload) is caught and returns `None`, but a ValueError from a non-integer
field propagates; the parsed tuple is stored under the monitor key. -/
def getMonitorSize (monitor : Int) (fresh : Bool) (st : Lp) :
    Except PyErr (Option (List Int) × Lp) :=
  if fresh || st.monitor.isEmpty || (dictLookup monitor st.monitor).isNone then
    match sendAndReceivePayload (strc "getsizemonitor:" ++ pyFmtInt monitor) st with
    | .error e => .error e
    | .ok (none, st') => .ok (none, st')
    | .ok (some p, st') =>
      match parseCsvInts (pySplitN ',' 3 p) with
      | none => .error .valueError
      | some rect => .ok (some rect, { st' with monitor := dictInsert monitor rect st'.monitor })
  else
    match dictLookup monitor st.monitor with
    | some r => .ok (some r, st)
    | none => .error .keyError

/-- `Lightpack.getColoursFromAll`: fetch the `getcolors` payload and decode it. -/
def getColoursFromAll (st : Lp) : Except PyErr (List (Int × (Int × Int × Int)) × Lp) :=
  match sendAndReceivePayload (strc "getcolors") st with
  | .error e => .error e
  | .ok (none, _) => .error .attributeError
  | .ok (some p, st') => .ok (decodeColourList p, st')

/-- `Lightpack._ledColourDef`: resolve the LED reference and format the
`<idx>-<r>,<g>,<b>` snippet. -/
def ledColourDef (led : LedRef) (rgb : Int × Int × Int) (st : Lp) :
    Except PyErr (List Char × Lp) :=
  match ledIndex led st with
  | .error e => .error e
  | .ok (i, st') => .ok (encodeColourAssignment i rgb, st')

/-- The list comprehension of `setColourToAll`: one `_ledColourDef` per LED
index, threading the session state. -/
def buildColourDefs (leds : List Nat) (rgb : Int × Int × Int) (st : Lp) :
    Except PyErr (List (List Char) × Lp) :=
  match leds with
  | [] => .ok ([], st)
  | l :: rest =>
    match ledColourDef (.idx (l : Int)) rgb st with
    | .error e => .error e
    | .ok (d, st') =>
      match buildColourDefs rest rgb st' with
      | .error e => .error e
      | .ok (ds, st'') => .ok (d :: ds, st'')

/-- `Lightpack.setColourToAll`: one colour assignment per LED from 0 to
`getCountLeds(fresh=False) - 1`, joined with `;`, sent as `setcolor:...` and
expecting the literal `ok`. -/
def setColourToAll (rgb : Int × Int × Int) (st : Lp) : Except PyErr Lp :=
  match getCountLeds false st with
  | .error e => .error e
  | .ok (count, st') =>
    match buildColourDefs (List.range count.toNat) rgb st' with
    | .error e => .error e
    | .ok (ds, st'') => sendAndExpectOk (strc "setcolor:" ++ joinChar ';' ds) st''

/-! ## Concrete session states used by the claim theorems. -/

/-- A session configured with the alias list `["left", "right"]`. -/
def stAliases : Lp := initLp (some [strc "left", strc "right"]) []

/-- A session with no alias list configured. -/
def stNoAliases : Lp := initLp none []

/-- A session whose LED-count cache is populated with 4. -/
def stCount4 : Lp := { initLp none [] with countLeds := some 4 }

/-- A never-fetched session whose server will answer `getcountleds:4`. -/
def stCountScript : Lp := initLp none [strc "getcountleds:4"]

/-- A session with LED count 3 cached and a server that will answer `ok`. -/
def stCount3Ok : Lp := { initLp none [strc "ok"] with countLeds := some 3 }

/-- A session with LED count 3 cached and a server that will answer `fail`. -/
def stCount3Fail : Lp := { initLp none [strc "fail"] with countLeds := some 3 }

/-- The session state after a `getcountleds` fetch that parsed the count `n`,
with `rest` the remaining script. -/
def afterCountFetch (st : Lp) (n : Nat) (rest : List (List Char)) : Lp :=
  { st with
    countLeds := some (n : Int)
    conn := { script := rest, sent := st.conn.sent ++ [strc "getcountleds"] } }

/-- A never-fetched session whose server will answer `getscreensize:` (empty
payload). -/
def stScreenEmpty : Lp := initLp none [strc "getscreensize:"]

/-- The state after `getScreenSize` has consumed `stScreenEmpty`'s scripted
empty payload: the empty tuple is cached. -/
def stScreenCachedEmpty : Lp :=
  { stScreenEmpty with
    screenSize := some []
    conn := { script := [], sent := [strc "getscreensize"] } }

/-- A never-fetched session whose server will answer `getscreensize:x,y`. -/
def stScreenBad : Lp := initLp none [strc "getscreensize:x,y"]

/-- A never-fetched session whose server will answer `getsizemonitor:` (empty
payload). -/
def stMonitorEmpty : Lp := initLp none [strc "getsizemonitor:"]

/-- The state after `getMonitorSize 0` has consumed `stMonitorEmpty`'s scripted
empty payload: the empty tuple is cached for monitor 0. -/
def stMonitorCachedEmpty : Lp :=
  { stMonitorEmpty with
    monitor := [(0, [])]
    conn := { script := [], sent := [strc "getsizemonitor:0"] } }

/-- A never-fetched session whose server will answer `getsizemonitor:a`. -/
def stMonitorBad : Lp := initLp none [strc "getsizemonitor:a"]

/-! ## Helper lemmas: splitting, stripping and decimal round-trips. -/

theorem splitOnce_of_not_mem {sep : Char} {s : List Char} (h : sep ∉ s) :
    splitOnce sep s = none := by
  induction s with
  | nil => rfl
  | cons c cs ih =>
    have hc : c ≠ sep := fun he => h (he ▸ List.mem_cons_self c cs)
    have hcs : sep ∉ cs := fun hm => h (List.mem_cons_of_mem c hm)
    simp [splitOnce, hc, ih hcs]

theorem splitOnce_append {sep : Char} {a b : List Char} (h : sep ∉ a) :
    splitOnce sep (a ++ sep :: b) = some (a, b) := by
  induction a with
  | nil => simp [splitOnce]
  | cons c cs ih =>
    have hc : c ≠ sep := fun he => h (he ▸ List.mem_cons_self c cs)
    have hcs : sep ∉ cs := fun hm => h (List.mem_cons_of_mem c hm)
    simp [splitOnce, hc, ih hcs]

theorem pySplitAll_of_not_mem {sep : Char} {s : List Char} (h : sep ∉ s) :
    pySplitAll sep s = [s] := by
  simp [pySplitAll, splitAllFuel, splitOnce_of_not_mem h]

theorem dropWhile_eq_self_of_all {p : Char → Bool} {l : List Char}
    (h : ∀ x ∈ l, p x = false) : l.dropWhile p = l := by
  cases l with
  | nil => rfl
  | cons a l => rw [List.dropWhile_cons_of_neg]; simp [h a (by simp)]

theorem pyRstrip_of_not_mem {c : Char} {s : List Char} (h : c ∉ s) :
    pyRstrip c s = s := by
  unfold pyRstrip
  rw [dropWhile_eq_self_of_all, List.reverse_reverse]
  intro x hx
  have : x ∈ s := List.mem_reverse.mp hx
  simp only [beq_eq_false_iff_ne, ne_eq]
  exact fun he => h (he ▸ this)

theorem pyStripWS_of_all {s : List Char} (h : ∀ x ∈ s, isPySpace x = false) :
    pyStripWS s = s := by
  unfold pyStripWS
  rw [dropWhile_eq_self_of_all h, dropWhile_eq_self_of_all, List.reverse_reverse]
  intro x hx
  exact h x (List.mem_reverse.mp hx)

/-- The facts about ASCII digit characters the round-trip proofs need. -/
theorem digitChar_facts : ∀ d, d < 10 →
    digitVal (Nat.digitChar d) = some d ∧ Nat.digitChar d ≠ '_' ∧
    Nat.digitChar d ≠ '-' ∧ Nat.digitChar d ≠ '+' ∧ Nat.digitChar d ≠ ',' ∧
    Nat.digitChar d ≠ ';' ∧ Nat.digitChar d ≠ ':' ∧
    isPySpace (Nat.digitChar d) = false := by decide

theorem natDigitsAux_eq_digits {fuel n : Nat} (h : n ≤ fuel) :
    natDigitsAux fuel n = Nat.digits 10 n := by
  induction fuel generalizing n with
  | zero =>
    have : n = 0 := Nat.le_zero.mp h
    subst this; simp [natDigitsAux]
  | succ fuel ih =>
    cases n with
    | zero => simp [natDigitsAux]
    | succ m =>
      have hdiv : (m + 1) / 10 ≤ fuel := by
        have h1 : (m + 1) / 10 < m + 1 := Nat.div_lt_self (Nat.succ_pos m) (by norm_num)
        omega
      rw [natDigitsAux, ih hdiv, Nat.digits_def' (by norm_num : (1:ℕ) < 10) (Nat.succ_pos m)]

theorem natDigitsLE_eq_digits (n : Nat) : natDigitsLE n = Nat.digits 10 n :=
  natDigitsAux_eq_digits (Nat.le_refl n)

theorem mem_natRepr {c : Char} {n : Nat} (h : c ∈ natRepr n) :
    ∃ d, d < 10 ∧ c = Nat.digitChar d := by
  unfold natRepr at h
  by_cases h0 : n = 0
  · simp [h0] at h
    exact ⟨0, by norm_num, h⟩
  · rw [if_neg h0, natDigitsLE_eq_digits] at h
    obtain ⟨d, hd, hc⟩ := List.mem_map.mp h
    exact ⟨d, Nat.digits_lt_base (by norm_num) (List.mem_reverse.mp hd), hc.symm⟩

theorem natRepr_ne_nil (n : Nat) : natRepr n ≠ [] := by
  unfold natRepr
  by_cases h0 : n = 0
  · simp [h0]
  · rw [if_neg h0, natDigitsLE_eq_digits]
    simp [Nat.digits_ne_nil_iff_ne_zero.mpr h0]

theorem foldl_reverse_digits (L : List Nat) (a : Nat) :
    (L.reverse).foldl (fun x d => x * 10 + d) a = a * 10 ^ L.length + Nat.ofDigits 10 L := by
  induction L generalizing a with
  | nil => simp
  | cons d L ih =>
    rw [List.reverse_cons, List.foldl_append]
    simp only [List.foldl_cons, List.foldl_nil, ih, Nat.ofDigits_cons, List.length_cons]
    ring

theorem parseUAux_digitChars {L : List Nat} (h : ∀ d ∈ L, d < 10) (acc : Nat) :
    parseUAux acc (L.map Nat.digitChar) = some (L.foldl (fun x d => x * 10 + d) acc) := by
  induction L generalizing acc with
  | nil => rfl
  | cons d L ih =>
    have hd : d < 10 := h d (List.mem_cons_self d L)
    obtain ⟨hval, hund, _⟩ := digitChar_facts d hd
    rw [List.map_cons]
    show parseUAux acc (Nat.digitChar d :: L.map Nat.digitChar) = _
    rw [parseUAux.eq_def]
    simp only [if_neg hund, hval, List.foldl_cons]
    exact ih (fun x hx => h x (List.mem_cons_of_mem d hx)) (acc * 10 + d)

theorem parseUDigits_natRepr (n : Nat) : parseUDigits (natRepr n) = some n := by
  unfold natRepr
  by_cases h0 : n = 0
  · subst h0; rfl
  · rw [if_neg h0, natDigitsLE_eq_digits]
    have hne : Nat.digits 10 n ≠ [] := Nat.digits_ne_nil_iff_ne_zero.mpr h0
    have hlt : ∀ d ∈ (Nat.digits 10 n).reverse, d < 10 := fun d hd =>
      Nat.digits_lt_base (by norm_num) (List.mem_reverse.mp hd)
    obtain ⟨hd, tl, hrev⟩ := List.exists_cons_of_ne_nil (by simpa using hne :
      (Nat.digits 10 n).reverse ≠ [])
    rw [hrev, List.map_cons]
    have hhd : hd < 10 := hlt hd (hrev ▸ List.mem_cons_self hd tl)
    obtain ⟨hval, _⟩ := digitChar_facts hd hhd
    rw [parseUDigits.eq_def]
    simp only [hval]
    rw [parseUAux_digitChars (fun d hdm => hlt d (hrev ▸ List.mem_cons_of_mem hd hdm)) hd]
    have : (hd :: tl).foldl (fun x d => x * 10 + d) 0 = n := by
      rw [← hrev, foldl_reverse_digits]
      simpa using Nat.ofDigits_digits 10 n
    simpa [List.foldl_cons] using congrArg some this

theorem pyStripWS_natRepr (n : Nat) : pyStripWS (natRepr n) = natRepr n := by
  refine pyStripWS_of_all (fun x hx => ?_)
  obtain ⟨d, hd, rfl⟩ := mem_natRepr hx
  exact (digitChar_facts d hd).2.2.2.2.2.2.2

theorem pyParseInt_natRepr (n : Nat) : pyParseInt (natRepr n) = some (n : Int) := by
  obtain ⟨c, rest, hcons⟩ := List.exists_cons_of_ne_nil (natRepr_ne_nil n)
  obtain ⟨d, hd, rfl⟩ := mem_natRepr (hcons ▸ List.mem_cons_self c rest)
  obtain ⟨_, _, hminus, hplus, _⟩ := digitChar_facts d hd
  rw [pyParseInt.eq_def, pyStripWS_natRepr, hcons]
  simp only [if_neg hminus, if_neg hplus]
  rw [← hcons, parseUDigits_natRepr]
  rfl

theorem pyFmtInt_nonneg {i : Int} (h : 0 ≤ i) : pyFmtInt i = natRepr i.toNat := by
  unfold pyFmtInt
  rw [if_neg (by omega)]

theorem hasNonWS_natRepr (n : Nat) : hasNonWS (natRepr n) = true := by
  obtain ⟨c, rest, hcons⟩ := List.exists_cons_of_ne_nil (natRepr_ne_nil n)
  obtain ⟨d, hd, rfl⟩ := mem_natRepr (hcons ▸ List.mem_cons_self c rest)
  unfold hasNonWS
  rw [hcons]
  simp [(digitChar_facts d hd).2.2.2.2.2.2.2]

/-- When a sequence of digits has no separator character in it, `pyParseInt`
recovers the value `natRepr` printed. Characters of `natRepr` are digits. -/
theorem natRepr_not_mem {n : Nat} {c : Char}
    (hc : ∀ d, d < 10 → Nat.digitChar d ≠ c) : c ∉ natRepr n := by
  intro hmem
  obtain ⟨d, hd, he⟩ := mem_natRepr hmem
  exact hc d hd he.symm

theorem ledIndex_cached {st : Lp} {c : Int} (h : st.countLeds = some c) (i : Int) :
    ledIndex (.idx i) st =
      if i + 1 > c then .error .indexError else .ok (i + 1, st) := by
  unfold ledIndex getCountLeds
  rw [h]
  simp

theorem nameOf_append {a b : List Char} (h : ':' ∉ a) :
    nameOf (a ++ ':' :: b) = some a := by
  unfold nameOf commandPart pySplit1
  rw [splitOnce_append h]
  rfl

theorem payloadOf_append {a b : List Char} (h : ':' ∉ a) :
    payloadOf (a ++ ':' :: b) = some b := by
  unfold payloadOf commandPart pySplit1
  rw [splitOnce_append h]
  rfl

theorem nameOf_no_colon {s : List Char} (h : ':' ∉ s) : nameOf s = some s := by
  unfold nameOf commandPart pySplit1
  rw [splitOnce_of_not_mem h]
  rfl

theorem payloadOf_no_colon {s : List Char} (h : ':' ∉ s) : payloadOf s = none := by
  unfold payloadOf commandPart pySplit1
  rw [splitOnce_of_not_mem h]
  rfl

theorem getCountLeds_absent {st : Lp} (h0 : st.countLeds = none)
    {n : Nat} {rest : List (List Char)}
    (hs : st.conn.script = (strc "getcountleds:" ++ natRepr n) :: rest) :
    getCountLeds false st = .ok ((n : Int), afterCountFetch st n rest) := by
  rcases st with ⟨lm, cl, pr, ls, ss, mon, scr, snt⟩
  simp only at h0 hs
  subst h0
  subst hs
  have hsplit : strc "getcountleds:" ++ natRepr n = strc "getcountleds" ++ ':' :: natRepr n := rfl
  unfold getCountLeds sendAndReceivePayload sendAndReceive readResult sendCmd
  simp only [Option.isNone_none, Bool.or_true, if_true]
  rw [hsplit, payloadOf_append (by decide)]
  simp only [pyParseInt_natRepr]
  rfl

/-! ## Claim theorems. -/

/-- C1: a greeting that does not match `^Lightpack API v(\S+)` makes `connect`
raise AttributeError — `match.group(1)` is evaluated on `None` before the
`if not match` classification — rather than the classified
`CannotConnectError` the claim (and the method's docstring) promise. -/
theorem claim1_nonmatching_greeting_raises_attribute_error :
    connectCheck (strc "Lightpack v1.4") = .error .attributeError ∧
    (∀ g : List Char, greetMatch g = none →
      connectCheck g = .error .attributeError) := by
  refine ⟨by decide, fun g h => ?_⟩
  unfold connectCheck
  rw [h]

theorem claim1_witness :
    connectCheck (strc "Lightpack API x") = .error .attributeError :=
  claim1_nonmatching_greeting_raises_attribute_error.2 (strc "Lightpack API x") (by decide)

/-- C2: on a freshly constructed session, `getLedSizes(fresh=False)` issues no
fetch at all and returns the initial empty list: `__init__` sets `_ledSizes`
to `[]`, which never compares equal to the `{}` the guard tests, so the
"absent entry triggers exactly one fetch" behaviour the claim states does not
happen (the state, including the sent-command log and the script, is
returned unchanged). -/
theorem claim2_getLedSizes_initial_fresh_false_skips_fetch :
    getLedSizes false (initLp none []) = .ok (.pyList, initLp none []) ∧
    (initLp none []).conn.sent = [] ∧ ledSizesEqEmptyDict .pyList = false := by
  refine ⟨by decide, rfl, rfl⟩

/-- C5, counterexample: for the colon-free line `"abc"` the name decoder
returns the whole line, not an absent result as the claim states. -/
theorem claim5_counterexample_name_not_absent :
    nameOf (strc "abc") = some (strc "abc") ∧ nameOf (strc "abc") ≠ none := by
  refine ⟨by decide, by decide⟩

/-- C5, amended: the name decoder returns the substring before the first
colon and the payload decoder the substring after it; on a line with no
colon the payload decoder returns an absent result, but the name decoder
returns the whole line. -/
theorem claim5_command_part_decoders :
    (∀ a b : List Char, ':' ∉ a →
      nameOf (a ++ ':' :: b) = some a ∧ payloadOf (a ++ ':' :: b) = some b) ∧
    (∀ s : List Char, ':' ∉ s → nameOf s = some s ∧ payloadOf s = none) :=
  ⟨fun _ _ h => ⟨nameOf_append h, payloadOf_append h⟩,
   fun _ h => ⟨nameOf_no_colon h, payloadOf_no_colon h⟩⟩

theorem claim5_witness :
    (nameOf (strc "ab" ++ ':' :: strc "c") = some (strc "ab") ∧
      payloadOf (strc "ab" ++ ':' :: strc "c") = some (strc "c")) ∧
    (nameOf (strc "xy") = some (strc "xy") ∧ payloadOf (strc "xy") = none) :=
  ⟨claim5_command_part_decoders.1 (strc "ab") (strc "c") (by decide),
   claim5_command_part_decoders.2 (strc "xy") (by decide)⟩

/-- C7: with aliases `["left", "right"]`, `"right"` resolves to wire index 2
and `"top"` raises `AliasDoesNotExistError`; with no alias list configured
any alias raises `AliasDoesNotExistError`; and index 5 with cached LED count
4 raises IndexError. -/
theorem claim7_alias_and_index_resolution :
    ledIndex (.alias (strc "right")) stAliases = .ok (2, stAliases) ∧
    ledIndex (.alias (strc "top")) stAliases = .error .aliasDoesNotExist ∧
    (∀ a : List Char, ledIndex (.alias a) stNoAliases = .error .aliasDoesNotExist) ∧
    ledIndex (.idx 5) stCount4 = .error .indexError := by
  refine ⟨by decide, by decide, fun a => rfl, by decide⟩

/-- C10: a negative zero-based index is never rejected: with the LED count
populated at any `c ≥ i + 1`, resolution returns the wire index `i + 1`
(zero or negative) without error, and `_ledColourDef` happily encodes the
out-of-domain wire index 0 onto the wire. -/
theorem claim10_negative_index_unchecked :
    (∀ i : Int, i < 0 → ∀ (st : Lp) (c : Int), st.countLeds = some c → i + 1 ≤ c →
      ledIndex (.idx i) st = .ok (i + 1, st)) ∧
    ledColourDef (.idx (-1)) (10, 20, 30) stCount4 = .ok (strc "0-10,20,30", stCount4) := by
  constructor
  · intro i _ st c hc hb
    rw [ledIndex_cached hc i, if_neg (by omega)]
  · decide

theorem claim10_witness :
    ledIndex (.idx (-1)) stCount4 = .ok (-1 + 1, stCount4) :=
  claim10_negative_index_unchecked.1 (-1) (by decide) stCount4 4 rfl (by decide)

/-- C3, counterexample: resolving index 0 on a session whose LED-count entry
has never been populated does issue a `getcountleds` fetch (the sent log
gains the command and the scripted response is consumed), contradicting the
claim that resolution performs no network I/O and skips the bounds check. -/
theorem claim3_counterexample_resolution_fetches_when_absent :
    Except.map (fun p => (p.1, p.2.conn.sent, p.2.countLeds))
        (ledIndex (.idx 0) stCountScript)
      = .ok (1, [strc "getcountleds"], some 4) := by decide

/-- C3, amended: resolving a zero-based index performs a non-fresh LED-count
read: when the count entry is populated no network I/O occurs and the bounds
check uses the cached count; when the entry is absent, one `getcountleds`
fetch populates it and the bounds check uses the fetched count. -/
theorem claim3_resolution_uses_nonfresh_count :
    (∀ (st : Lp) (c : Int), st.countLeds = some c → ∀ i : Int,
      ledIndex (.idx i) st =
        if i + 1 > c then .error .indexError else .ok (i + 1, st)) ∧
    (∀ (st : Lp) (n : Nat) (rest : List (List Char)) (i : Int),
      st.countLeds = none →
      st.conn.script = (strc "getcountleds:" ++ natRepr n) :: rest →
      ledIndex (.idx i) st =
        if i + 1 > (n : Int) then .error .indexError
        else .ok (i + 1, afterCountFetch st n rest)) := by
  constructor
  · intro st c hc i
    exact ledIndex_cached hc i
  · intro st n rest i h0 hs
    unfold ledIndex
    rw [getCountLeds_absent h0 hs]

theorem claim3_witness :
    ledIndex (.idx 0) stCountScript =
      .ok (0 + 1, afterCountFetch stCountScript 4 []) :=
  claim3_resolution_uses_nonfresh_count.2 stCountScript 4 [] 0 rfl (by decide)

/-- C8: `setColourToAll((255,0,0))` with LED count 3 cached sends exactly
`setcolor:1-255,0,0;2-255,0,0;3-255,0,0` — one assignment per LED, computed
from the non-fresh cached count, the sent log showing no `getcountleds`
fetch — and expects the literal response `ok`, raising `CommandFailedError`
with that command, the actual response and `ok` otherwise. -/
theorem claim8_setColourToAll_command :
    setColourToAll (255, 0, 0) stCount3Ok =
      .ok { stCount3Ok with
            conn := { script := [],
                      sent := [strc "setcolor:1-255,0,0;2-255,0,0;3-255,0,0"] } } ∧
    setColourToAll (255, 0, 0) stCount3Fail =
      .error (.commandFailed (strc "setcolor:1-255,0,0;2-255,0,0;3-255,0,0")
        (strc "fail") (strc "ok")) := by
  exact ⟨by decide, by decide⟩

/-- C4, counterexample: a `getscreensize` fetch whose payload is empty does
not leave the cache entry absent: the empty tuple is parsed, stored as a
sentinel, and returned, and the subsequent `fresh=False` call returns the
cached sentinel without issuing any new fetch (the state, in particular the
sent log, is unchanged). -/
theorem claim4_counterexample_empty_payload_cached :
    getScreenSize true stScreenEmpty = .ok (some [], stScreenCachedEmpty) ∧
    stScreenCachedEmpty.screenSize = some [] ∧
    getScreenSize false stScreenCachedEmpty = .ok (some [], stScreenCachedEmpty) := by
  refine ⟨by decide, by decide, by decide⟩

/-- C4, amended: only a response with no payload separator (and, for
`getScreenSize`, a payload with a non-integer field) returns `None` and
leaves the entry absent so that a later `fresh=False` call fetches again;
an empty payload decodes to the empty tuple, which is cached and returned,
and a later `fresh=False` call returns it without a fetch; `getMonitorSize`
propagates a ValueError on a non-integer field instead of returning. -/
theorem claim4_geometry_unavailable_behaviour :
    (∀ (st : Lp) (line : List Char) (rest : List (List Char)),
      st.screenSize = none → st.conn.script = line :: rest → ':' ∉ line →
      getScreenSize false st = .ok (none,
        { st with conn := { script := rest,
                            sent := st.conn.sent ++ [strc "getscreensize"] } })) ∧
    (∀ (st : Lp) (m : Int) (line : List Char) (rest : List (List Char)),
      dictLookup m st.monitor = none → st.conn.script = line :: rest → ':' ∉ line →
      getMonitorSize m false st = .ok (none,
        { st with conn := { script := rest,
                            sent := st.conn.sent
                              ++ [strc "getsizemonitor:" ++ pyFmtInt m] } })) ∧
    getScreenSize true stScreenBad = .ok (none,
      { stScreenBad with conn := { script := [], sent := [strc "getscreensize"] } }) ∧
    getScreenSize true stScreenEmpty = .ok (some [], stScreenCachedEmpty) ∧
    getScreenSize false stScreenCachedEmpty = .ok (some [], stScreenCachedEmpty) ∧
    getMonitorSize 0 true stMonitorEmpty = .ok (some [], stMonitorCachedEmpty) ∧
    getMonitorSize 0 false stMonitorCachedEmpty = .ok (some [], stMonitorCachedEmpty) ∧
    getMonitorSize 0 true stMonitorBad = .error .valueError := by
  refine ⟨?_, ?_, by decide, by decide, by decide, by decide, by decide, by decide⟩
  · intro st line rest h0 hs hc
    rcases st with ⟨lm, cl, pr, ls, ss, mon, scr, snt⟩
    simp only at h0 hs
    subst h0
    subst hs
    unfold getScreenSize sendAndReceivePayload sendAndReceive readResult sendCmd
    simp only [Option.isNone_none, Bool.or_true, if_true]
    rw [payloadOf_no_colon hc]
  · intro st m line rest hlook hs hc
    rcases st with ⟨lm, cl, pr, ls, ss, mon, scr, snt⟩
    simp only at hlook hs
    subst hs
    unfold getMonitorSize sendAndReceivePayload sendAndReceive readResult sendCmd
    simp only [hlook, Option.isNone_none, Bool.or_true, if_true]
    rw [payloadOf_no_colon hc]

theorem claim4_witness :
    getScreenSize false (initLp none [strc "nopayload"]) =
      .ok (none, { initLp none [strc "nopayload"] with
                   conn := { script := [], sent := [strc "getscreensize"] } }) ∧
    getMonitorSize 0 false (initLp none [strc "nopayload"]) =
      .ok (none, { initLp none [strc "nopayload"] with
                   conn := { script := [], sent := [strc "getsizemonitor:0"] } }) :=
  ⟨claim4_geometry_unavailable_behaviour.1 (initLp none [strc "nopayload"])
     (strc "nopayload") [] rfl rfl (by decide),
   claim4_geometry_unavailable_behaviour.2.1 (initLp none [strc "nopayload"]) 0
     (strc "nopayload") [] rfl rfl (by decide)⟩

/-- C9: decoding a `;`-joined colour payload silently skips malformed
snippets — empty ones, ones with no `-`, a blank index, a component count
other than three, or a failed integer parse — and in particular
`"1-10,20,30;;2-5,5,5;"` decodes to exactly `{1: (10,20,30), 2: (5,5,5)}`;
skipping is total: a snippet decoding to `None` never changes the result. -/
theorem claim9_colour_list_skips_malformed :
    decodeColourList (strc "1-10,20,30;;2-5,5,5;")
      = [(1, (10, 20, 30)), (2, (5, 5, 5))] ∧
    ledColourRead [] = none ∧
    ledColourRead (strc "2-5,5") = none ∧
    ledColourRead (strc "1-a,b,c") = none ∧
    ledColourRead (strc "-1,2,3") = none ∧
    (∀ s : List Char, '-' ∉ s → ledColourRead s = none) ∧
    (∀ (acc : List (Int × (Int × Int × Int))) (pre post : List (List Char))
      (s : List Char), ledColourRead s = none →
      colourLoop (pre ++ s :: post) acc = colourLoop (pre ++ post) acc) := by
  refine ⟨by decide, by decide, by decide, by decide, by decide, ?_, ?_⟩
  · intro s h
    unfold ledColourRead
    rw [splitOnce_of_not_mem h]
  · intro acc pre post s h
    induction pre generalizing acc with
    | nil => simp only [List.nil_append, colourLoop, h]
    | cons x pre ih =>
      simp only [List.cons_append, colourLoop]
      cases ledColourRead x with
      | none => exact ih acc
      | some kv => exact ih (dictInsert kv.1 kv.2 acc)

theorem claim9_witness :
    (ledColourRead (strc "xx") = none) ∧
    colourLoop ([strc "1-1,2,3"] ++ strc "xx" :: []) []
      = colourLoop ([strc "1-1,2,3"] ++ []) [] :=
  ⟨claim9_colour_list_skips_malformed.2.2.2.2.2.1 (strc "xx") (by decide),
   claim9_colour_list_skips_malformed.2.2.2.2.2.2 [] [strc "1-1,2,3"] []
     (strc "xx") (claim9_colour_list_skips_malformed.2.2.2.2.2.1 (strc "xx") (by decide))⟩

/-! ## Round-trip lemmas for the colour codec, and claim C6. -/

theorem dash_not_mem_natRepr (n : Nat) : '-' ∉ natRepr n :=
  natRepr_not_mem (fun d hd => (digitChar_facts d hd).2.2.1)

theorem comma_not_mem_natRepr (n : Nat) : ',' ∉ natRepr n :=
  natRepr_not_mem (fun d hd => (digitChar_facts d hd).2.2.2.2.1)

theorem semicolon_not_mem_natRepr (n : Nat) : ';' ∉ natRepr n :=
  natRepr_not_mem (fun d hd => (digitChar_facts d hd).2.2.2.2.2.1)

theorem natRepr_isEmpty (n : Nat) : (natRepr n).isEmpty = false := by
  obtain ⟨c, rest, h⟩ := List.exists_cons_of_ne_nil (natRepr_ne_nil n)
  rw [h]
  rfl

theorem pySplitN_succ (sep : Char) (n : Nat) (s : List Char) :
    pySplitN sep (n + 1) s =
      match splitOnce sep s with
      | none => [s]
      | some p => p.1 :: pySplitN sep n p.2 := rfl

theorem pySplitN_two_append {s1 s2 s3 : List Char} (h1 : ',' ∉ s1) (h2 : ',' ∉ s2) :
    pySplitN ',' 2 (s1 ++ ',' :: (s2 ++ ',' :: s3)) = [s1, s2, s3] := by
  have e2 : (2 : Nat) = 1 + 1 := rfl
  have e1 : (1 : Nat) = 0 + 1 := rfl
  rw [e2, pySplitN_succ, splitOnce_append h1]
  simp only []
  rw [e1, pySplitN_succ, splitOnce_append h2]
  simp only []
  rfl

theorem parseCsvInts_natRepr3 (a b c : Nat) :
    parseCsvInts [natRepr a, natRepr b, natRepr c]
      = some [(a : Int), (b : Int), (c : Int)] := by
  simp [parseCsvInts, hasNonWS_natRepr, pyParseInt_natRepr]

theorem ledColourRead_encode (ni nr ng nb : Nat) :
    ledColourRead (natRepr ni ++ '-' :: (natRepr nr ++ ',' :: (natRepr ng ++ ',' :: natRepr nb)))
      = some ((ni : Int), ((nr : Int), (ng : Int), (nb : Int))) := by
  unfold ledColourRead
  rw [splitOnce_append (dash_not_mem_natRepr ni)]
  simp only []
  rw [pySplitN_two_append (comma_not_mem_natRepr nr) (comma_not_mem_natRepr ng),
    parseCsvInts_natRepr3]
  simp only [pyStripWS_natRepr, natRepr_isEmpty]
  rw [pyParseInt_natRepr]
  rfl

theorem semicolon_not_mem_encode (ni nr ng nb : Nat) :
    ';' ∉ natRepr ni ++ '-' :: (natRepr nr ++ ',' :: (natRepr ng ++ ',' :: natRepr nb)) := by
  intro h
  simp only [List.mem_append, List.mem_cons] at h
  rcases h with h | h | h | h | h | h | h
  · exact semicolon_not_mem_natRepr ni h
  · exact absurd h (by decide)
  · exact semicolon_not_mem_natRepr nr h
  · exact absurd h (by decide)
  · exact semicolon_not_mem_natRepr ng h
  · exact absurd h (by decide)
  · exact semicolon_not_mem_natRepr nb h

theorem decode_encode_nat (ni nr ng nb : Nat) :
    decodeColourList (encodeColourAssignment (ni : Int) ((nr : Int), (ng : Int), (nb : Int)))
      = [((ni : Int), ((nr : Int), (ng : Int), (nb : Int)))] := by
  have henc : encodeColourAssignment (ni : Int) ((nr : Int), (ng : Int), (nb : Int))
      = natRepr ni ++ '-' :: (natRepr nr ++ ',' :: (natRepr ng ++ ',' :: natRepr nb)) := by
    unfold encodeColourAssignment
    rw [pyFmtInt_nonneg (Int.natCast_nonneg ni), pyFmtInt_nonneg (Int.natCast_nonneg nr),
      pyFmtInt_nonneg (Int.natCast_nonneg ng), pyFmtInt_nonneg (Int.natCast_nonneg nb)]
    simp [Int.toNat_natCast]
  rw [henc]
  unfold decodeColourList
  rw [pyRstrip_of_not_mem (semicolon_not_mem_encode ni nr ng nb),
    pySplitAll_of_not_mem (semicolon_not_mem_encode ni nr ng nb)]
  unfold colourLoop
  rw [ledColourRead_encode]
  simp only []
  rfl

/-- C6: for every colour with components in 0..255 and every wire index
at least 1, decoding the colour list produced by encoding the single
assignment `<i>-<r>,<g>,<b>` yields exactly the one-entry mapping
`{i: (r, g, b)}`. -/
theorem claim6_colour_roundtrip (i r g b : Int) (hi : 1 ≤ i) (hr0 : 0 ≤ r)
    (hr1 : r ≤ 255) (hg0 : 0 ≤ g) (hg1 : g ≤ 255) (hb0 : 0 ≤ b) (hb1 : b ≤ 255) :
    decodeColourList (encodeColourAssignment i (r, g, b)) = [(i, (r, g, b))] := by
  obtain ⟨ni, rfl⟩ : ∃ n : Nat, i = (n : Int) :=
    ⟨i.toNat, (Int.toNat_of_nonneg (by omega)).symm⟩
  obtain ⟨nr, rfl⟩ : ∃ n : Nat, r = (n : Int) := ⟨r.toNat, (Int.toNat_of_nonneg hr0).symm⟩
  obtain ⟨ng, rfl⟩ : ∃ n : Nat, g = (n : Int) := ⟨g.toNat, (Int.toNat_of_nonneg hg0).symm⟩
  obtain ⟨nb, rfl⟩ : ∃ n : Nat, b = (n : Int) := ⟨b.toNat, (Int.toNat_of_nonneg hb0).symm⟩
  exact decode_encode_nat ni nr ng nb

theorem claim6_witness :
    decodeColourList (encodeColourAssignment 1 (255, 0, 0)) = [(1, (255, 0, 0))] :=
  claim6_colour_roundtrip 1 255 0 0 (by norm_num) (by norm_num) (by norm_num)
    (by norm_num) (by norm_num) (by norm_num) (by norm_num)

end PyLightpack
